import Mathlib

/-!
Shallow embedding of `src/revChatGPT/V1.py` (rodja/ChatGPT): the
conversation-state tracker and the streaming response processing of
`Chatbot.ask` / `AsyncChatbot.ask`, plus `Chatbot.rollback_conversation`
and `Chatbot.__get_cached_access_token`.

Conventions of the embedding:
* Python/JSON values flowing through `ask` are modelled by `JVal`
  (Python `None` is `JVal.null`; `json.loads` output is a `JVal`).
* `json.loads` itself is standard-library code, not part of the
  repository; stream processing takes it as a parameter
  `decode : String → Option JVal` (`none` models `json.JSONDecodeError`).
  Concrete instantiations use small lookup tables whose entries pair a
  line with the value `json.loads` returns on it.
* Raised exceptions are modelled as values of `Failure`: `Failure.err`
  is `raise Error(source, message, code)` from the module's own `Error`
  class, `Failure.exc` an uncaught Python exception (KeyError,
  TypeError, IndexError, AttributeError), the remaining constructors the
  two bare `raise Exception(...)` sites.
* The synchronous `ask` reads `line = str(line)[2:-1]` from the byte
  stream; the `List String` stream input of the embedding holds the
  lines as text, i.e. after that conversion, which for the plain ASCII
  lines used here is the identity.  The asynchronous `aiter_lines`
  yields text lines directly.
* `time.time()` is passed in as an integer `now`; `uuid.uuid4()` results
  are passed in as explicit `freshUuid` arguments.
-/

/-- JSON/Python values as returned by `json.loads`: null, booleans,
numbers, strings, lists and dicts (dicts as key/value lists). -/
inductive JVal where
  | null
  | bool (b : Bool)
  | num (n : Int)
  | str (s : String)
  | arr (elems : List JVal)
  | obj (fields : List (String × JVal))

mutual

/-- Python `==` on the values `ask` compares (strings, null and mixed
types); structural equality, elementwise on lists and field-wise on
dicts.  (Python's `True == 1` numeric coercion is not modelled; every
comparison in the source has a string on one side.) -/
def JVal.beq : JVal → JVal → Bool
  | .null, .null => true
  | .bool a, .bool b => a == b
  | .num a, .num b => a == b
  | .str a, .str b => a == b
  | .arr a, .arr b => JVal.beqList a b
  | .obj a, .obj b => JVal.beqFields a b
  | _, _ => false

/-- Elementwise `JVal.beq` on lists. -/
def JVal.beqList : List JVal → List JVal → Bool
  | [], [] => true
  | x :: xs, y :: ys => JVal.beq x y && JVal.beqList xs ys
  | _, _ => false

/-- Fieldwise `JVal.beq` on dict entries. -/
def JVal.beqFields : List (String × JVal) → List (String × JVal) → Bool
  | [], [] => true
  | (k1, v1) :: xs, (k2, v2) :: ys => k1 == k2 && JVal.beq v1 v2 && JVal.beqFields xs ys
  | _, _ => false

end

/-- Python `is None` (identity test against `None`). -/
def JVal.isNull : JVal → Bool
  | .null => true
  | _ => false

/-- Python truthiness of a JSON value (`None`, `False`, `0`, `""`, `[]`
and `{}` are falsy). -/
def pyTruthy : JVal → Bool
  | .null => false
  | .bool b => b
  | .num n => n != 0
  | .str s => s != ""
  | .arr l => !l.isEmpty
  | .obj l => !l.isEmpty

/-- Python `a or b`. -/
def pyOr (a b : JVal) : JVal := if pyTruthy a then a else b

/-- An optional-string argument (`str | None`) as a Python value. -/
def jOfOpt : Option String → JVal
  | none => .null
  | some s => .str s

/-- First value bound to `key` in a dict's field list (JSON objects from
`json.loads` hold each key once). -/
def jlookup : List (String × JVal) → String → Option JVal
  | [], _ => none
  | (k, v) :: rest, key => if k = key then some v else jlookup rest key

/-- The Python exceptions the processed code can raise or catch. -/
inductive PyExc where
  | keyError
  | typeError
  | indexError
  | attributeError
deriving DecidableEq

/-- Python `d[k]` with a string key: the value for a dict that has the
key, `KeyError` for a dict that lacks it, `TypeError` otherwise. -/
def pySubscr : JVal → String → Except PyExc JVal
  | .obj fields, k =>
    match jlookup fields k with
    | some v => .ok v
    | none => .error .keyError
  | _, _ => .error .typeError

/-- Python `l[0]`: head of a list (`IndexError` when empty), first
character of a string, `TypeError` on a dict or scalar (a dict raises
`KeyError` for an absent integer key). -/
def pyIdx0 : JVal → Except PyExc JVal
  | .arr (v :: _) => .ok v
  | .arr [] => .error .indexError
  | .str s =>
    match s.data with
    | [] => .error .indexError
    | c :: _ => .ok (.str ⟨[c]⟩)
  | .obj _ => .error .keyError
  | _ => .error .typeError

/-- Python `d.get(k)`: value or `None` for a dict, `AttributeError` when
the receiver is not a dict. -/
def pyDictGet : JVal → String → Except PyExc JVal
  | .obj fields, k => .ok ((jlookup fields k).getD .null)
  | _, _ => .error .attributeError

/-- Python `d.get(k, default)`. -/
def pyDictGetD : JVal → String → JVal → Except PyExc JVal
  | .obj fields, k, d => .ok ((jlookup fields k).getD d)
  | _, _, _ => .error .attributeError

/-- Whether `pat` occurs at the head of `l`. -/
def matchesAt : List Char → List Char → Bool
  | _, [] => true
  | [], _ :: _ => false
  | c :: cs, p :: ps => c == p && matchesAt cs ps

/-- Whether `pat` occurs as a contiguous substring. -/
def hasSub : List Char → List Char → Bool
  | [], pat => pat.isEmpty
  | l@(_ :: rest), pat => matchesAt l pat || hasSub rest pat

/-- Python `pat in s` on strings. -/
def strContains (s pat : String) : Bool := hasSub s.data pat.data

/-- Python `k in v` for a string `k`: key membership in a dict,
substring test on a string, element membership in a list, `TypeError`
otherwise. -/
def pyContains (v : JVal) (k : String) : Except PyExc Bool :=
  match v with
  | .obj fields => .ok ((jlookup fields k).isSome)
  | .str s => .ok (strContains s k)
  | .arr l => .ok (l.any (fun e => JVal.beq e (.str k)))
  | _ => .error .typeError

/-- Python `s.replace(pat, rep)` worker: walks the string one character
at a time; a `Nat.succ` skip count finishes copying a consumed match. -/
def replAux (pat rep : List Char) : List Char → Nat → List Char
  | [], _ => []
  | _ :: rest, Nat.succ k => replAux pat rep rest k
  | c :: rest, 0 =>
    if matchesAt (c :: rest) pat then rep ++ replAux pat rep rest (pat.length - 1)
    else c :: replAux pat rep rest 0

/-- Python `s.replace(pat, rep)` for the non-empty patterns `ask` uses
(left-to-right, non-overlapping). -/
def pyReplace (s pat rep : String) : String :=
  if pat.data.isEmpty then s else ⟨replAux pat.data rep.data s.data 0⟩

/-- Python `line[6:]`. -/
def strDrop (s : String) (n : Nat) : String := ⟨s.data.drop n⟩

/-- The module's `Error(source, message, code)` exception.  The code
passes arbitrary values positionally (`__check_response` passes the
status code as `message` and the body text as `code`), so both fields
are `JVal`. -/
structure PyError where
  source : String
  message : JVal
  code : JVal

/-- How an `ask` invocation can abort: `err` is `raise Error(...)`,
`exc` an uncaught Python exception, `iseError` the
`raise Exception("Error: " + str(line))` for the literal
`Internal Server Error` line, `fieldMissing` the asynchronous
`raise Exception("Field missing. Details: " + str(line))`, and
`httpStatusError` the `response.raise_for_status()` of the asynchronous
`__check_response`. -/
inductive Failure where
  | err (e : PyError)
  | exc (e : PyExc)
  | iseError (line : String)
  | fieldMissing (line : JVal)
  | httpStatusError (status : Nat)

/-- Whether a `Failure` is a `raise Error(...)` of the module's own
error class (the documented error taxonomy). -/
def Failure.isErrorRaise : Failure → Bool
  | .err _ => true
  | _ => false

/-- The dict yielded per stream event:
`{"message": ..., "conversation_id": ..., "parent_id": ..., "model": ...}`. -/
structure MessageDelta where
  message : JVal
  conversation_id : JVal
  parent_id : JVal
  model : JVal

/-- Outcome of processing one stream line: `continue`, `break`, yield a
delta, or raise. -/
inductive LineStep where
  | skip
  | done
  | yields (d : MessageDelta)
  | fail (f : Failure)

/-- `Chatbot.__check_fields`: `data["message"]["content"]` under
`try/except TypeError/KeyError` (the only exceptions a subscript
raises). -/
def Chatbot.check_fields (data : JVal) : Bool :=
  match pySubscr data "message" with
  | .error _ => false
  | .ok m =>
    match pySubscr m "content" with
    | .error _ => false
    | .ok _ => true

/-- The synchronous `ask` on a decoded line that failed
`__check_fields`: the rate-limit detail string raises `Error(code=2)`,
a detail dict with code `"invalid_api_key"` raises `Error(code=3)`,
anything remaining `Error(code=1)` — except that
`line.get("detail", {}).get("code")` itself raises `AttributeError`
whenever `detail` holds a non-dict value. -/
def Chatbot.handleFieldMissing (line : JVal) : Failure :=
  match pyDictGet line "detail" with
  | .error e => .exc e
  | .ok d =>
    if JVal.beq d (.str "Too many requests in 1 hour. Try again later.") then
      .err ⟨"ask", d, .num 2⟩
    else
      match pyDictGetD line "detail" (.obj []) with
      | .error e => .exc e
      | .ok dd =>
        match pyDictGet dd "code" with
        | .error e => .exc e
        | .ok code =>
          if JVal.beq code (.str "invalid_api_key") then
            match pyDictGetD line "detail" (.obj []) with
            | .error e => .exc e
            | .ok dd2 =>
              match pyDictGet dd2 "message" with
              | .error e => .exc e
              | .ok msg => .err ⟨"ask", msg, .num 3⟩
          else .err ⟨"ask", .str "Field missing", .num 1⟩

/-- `line["message"]["content"]["parts"][0]` (the first failing
subscript propagates). -/
def extractMessage (line : JVal) : Except PyExc JVal :=
  match pySubscr line "message" with
  | .error e => .error e
  | .ok m =>
    match pySubscr m "content" with
    | .error e => .error e
    | .ok c =>
      match pySubscr c "parts" with
      | .error e => .error e
      | .ok parts => pyIdx0 parts

/-- `line["message"]["metadata"]`, the common prefix of both model
extractions. -/
def messageMetadata (line : JVal) : Except PyExc JVal :=
  match pySubscr line "message" with
  | .error e => .error e
  | .ok m => pySubscr m "metadata"

/-- `line["message"]["id"]`. -/
def messageId (line : JVal) : Except PyExc JVal :=
  match pySubscr line "message" with
  | .error e => .error e
  | .ok m => pySubscr m "id"

/-- `line["message"]["metadata"]["model_slug"]` under
`try/except KeyError`: a `KeyError` anywhere in the chain yields `None`
(other exceptions propagate). -/
def Chatbot.extractModel (line : JVal) : Except PyExc JVal :=
  match (match messageMetadata line with
         | .error e => .error e
         | .ok md => pySubscr md "model_slug" : Except PyExc JVal) with
  | .ok v => .ok v
  | .error .keyError => .ok .null
  | .error e => .error e

/-- `if "data: " in line: line = line[6:]` (a substring test; the slice
always removes the first six characters). -/
def stripDataTag (line : String) : String :=
  if strContains line "data: " then strDrop line 6 else line

/-- The three `line.replace` calls of the synchronous `ask`. -/
def fixEscapes (s : String) : String :=
  pyReplace (pyReplace (pyReplace s "\\\"" "\"") "\\'" "'") "\\\\" "\\"

/-- One iteration of the synchronous `ask` stream loop, lines 343-397:
the `Internal Server Error` literal raises; empty lines are skipped;
the `data: ` tag is stripped; the exact line `[DONE]` breaks; escape
sequences are fixed; a JSON-decode failure skips the line; a payload
failing `__check_fields` raises per `handleFieldMissing`; a message
equal to the prompt is skipped without yielding; otherwise the ids and
optional model are extracted and a delta is yielded. -/
def Chatbot.processLine (decode : String → Option JVal) (prompt : String)
    (line : String) : LineStep :=
  if line = "Internal Server Error" then .fail (.iseError line)
  else if line = "" then .skip
  else
    let line1 := stripDataTag line
    if line1 = "[DONE]" then .done
    else
      let line2 := fixEscapes line1
      match decode line2 with
      | none => .skip
      | some j =>
        if !(Chatbot.check_fields j) then .fail (Chatbot.handleFieldMissing j)
        else
          match extractMessage j with
          | .error e => .fail (.exc e)
          | .ok message =>
            if JVal.beq message (.str prompt) then .skip
            else
              match pySubscr j "conversation_id" with
              | .error e => .fail (.exc e)
              | .ok conv =>
                match messageId j with
                | .error e => .fail (.exc e)
                | .ok par =>
                  match Chatbot.extractModel j with
                  | .error e => .fail (.exc e)
                  | .ok model => .yields ⟨message, conv, par, model⟩

/-- `AsyncChatbot.__check_fields`: verbatim the same body as the
synchronous `__check_fields`. -/
def AsyncChatbot.check_fields (data : JVal) : Bool :=
  match pySubscr data "message" with
  | .error _ => false
  | .ok m =>
    match pySubscr m "content" with
    | .error _ => false
    | .ok _ => true

/-- `line["message"]["metadata"]["model_slug"] if "model_slug" in
line["message"]["metadata"] else None` of the asynchronous `ask` (the
condition is evaluated first, so an absent `metadata` raises
`KeyError`). -/
def AsyncChatbot.extractModel (line : JVal) : Except PyExc JVal :=
  match messageMetadata line with
  | .error e => .error e
  | .ok md =>
    match pyContains md "model_slug" with
    | .error e => .error e
    | .ok b => if b then pySubscr md "model_slug" else .ok .null

/-- One iteration of the asynchronous `ask` stream loop, lines 595-619:
no `Internal Server Error` check, `[DONE]` detected as a substring, no
escape fixing, a generic `Exception` on a payload failing
`__check_fields`, and no prompt-echo skip. -/
def AsyncChatbot.processLine (decode : String → Option JVal)
    (line : String) : LineStep :=
  if line = "" then .skip
  else
    let line1 := stripDataTag line
    if strContains line1 "[DONE]" then .done
    else
      match decode line1 with
      | none => .skip
      | some j =>
        if !(AsyncChatbot.check_fields j) then .fail (.fieldMissing j)
        else
          match extractMessage j with
          | .error e => .fail (.exc e)
          | .ok message =>
            match pySubscr j "conversation_id" with
            | .error e => .fail (.exc e)
            | .ok conv =>
              match messageId j with
              | .error e => .fail (.exc e)
              | .ok par =>
                match AsyncChatbot.extractModel j with
                | .error e => .fail (.exc e)
                | .ok model => .yields ⟨message, conv, par, model⟩

/-- What a full stream loop produces: the deltas yielded in order, the
final values of the loop-local `conversation_id`/`parent_id` variables,
and the raise that aborted the loop, if any. -/
structure StreamOutcome where
  deltas : List MessageDelta
  conv : JVal
  par : JVal
  error : Option Failure

/-- The generator loop over the stream lines: `skip` continues, `done`
breaks, a raise aborts (deltas already yielded stay delivered), and a
yield updates the loop-local ids from the yielded delta. -/
def runStream (step : String → LineStep) : List String → JVal → JVal → StreamOutcome
  | [], conv, par => ⟨[], conv, par, none⟩
  | l :: rest, conv, par =>
    match step l with
    | .skip => runStream step rest conv par
    | .done => ⟨[], conv, par, none⟩
    | .fail f => ⟨[], conv, par, some f⟩
    | .yields d =>
      let r := runStream step rest d.conversation_id d.parent_id
      ⟨d :: r.deltas, r.conv, r.par, r.error⟩

/-- The mutable attributes of a `Chatbot` that `ask`, `rollback` and the
conversation mapping touch.  `conversation_id`/`parent_id` start as the
constructor arguments (possibly `None`) and later hold whatever the
stream reported, so they are `JVal`; the mapping is a dict whose keys
are whatever values were committed (not only strings). -/
structure BotState where
  conversation_id : JVal
  parent_id : JVal
  conversation_mapping : List (JVal × JVal)
  conversation_id_prev_queue : List JVal
  parent_id_prev_queue : List JVal

/-- Python dict lookup in the conversation mapping. -/
def mapLookup : List (JVal × JVal) → JVal → Option JVal
  | [], _ => none
  | (k, v) :: rest, key => if JVal.beq k key then some v else mapLookup rest key

/-- Python dict assignment `m[key] = v` (overwrite or append). -/
def mapInsert : List (JVal × JVal) → JVal → JVal → List (JVal × JVal)
  | [], key, v => [(key, v)]
  | (k, w) :: rest, key, v =>
    if JVal.beq k key then (k, v) :: rest else (k, w) :: mapInsert rest key v

/-- `__map_conversations`: assigns `mapping[x["id"]] = y["current_node"]`
for every remote conversation; the remote data is passed in as the list
of `(id, current_node)` pairs it would produce. -/
def mapMerge : List (JVal × JVal) → List (JVal × JVal) → List (JVal × JVal)
  | m, [] => m
  | m, (k, v) :: rest => mapMerge (mapInsert m k v) rest

/-- What a consumed `ask` call leaves behind: the final tracker state,
the yielded deltas, and the raise that aborted the call, if any. -/
structure AskOutcome where
  state : BotState
  deltas : List MessageDelta
  error : Option Failure

/-- The argument-resolution phase of the synchronous `ask`, lines
286-313: validation, the parent reset on a conversation switch, the
`or`-defaulting, the fresh-UUID branch, and the conversation-mapping
branch (with its possible `KeyError`).  Returns the state as mutated so
far together with the resolved ids, or the state at the raise. -/
def Chatbot.askResolve (remote : List (JVal × JVal)) (freshUuid : String)
    (st : BotState) (conversation_id parent_id : Option String) :
    Except (BotState × Failure) (BotState × JVal × JVal) :=
  if parent_id.isSome && conversation_id.isNone then
    .error (st, .err ⟨"User", .str "conversation_id must be set once parent_id is set",
      .num (-1)⟩)
  else
    let st1 := match conversation_id with
      | some c =>
        if JVal.beq (.str c) st.conversation_id then st else { st with parent_id := .null }
      | none => st
    let conv := pyOr (jOfOpt conversation_id) st1.conversation_id
    let par0 := pyOr (jOfOpt parent_id) st1.parent_id
    let par := if conv.isNull && par0.isNull then .str freshUuid else par0
    if !conv.isNull && par.isNull then
      let mp :=
        if (mapLookup st1.conversation_mapping conv).isNone then
          mapMerge st1.conversation_mapping remote
        else st1.conversation_mapping
      let st2 := { st1 with conversation_mapping := mp }
      match mapLookup mp conv with
      | some p => .ok (st2, conv, p)
      | none => .error (st2, .exc .keyError)
    else .ok (st1, conv, par)

/-- The send-and-stream phase of the synchronous `ask`, lines 332-402:
push the resolved ids onto the two history queues, check the response
status, run the stream loop, and on normal completion commit
`conversation_mapping[conversation_id] = parent_id` and the current
ids (each only when not `None`). -/
def Chatbot.askSend (decode : String → Option JVal) (status : Nat) (body : String)
    (prompt : String) (st : BotState) (conv par : JVal)
    (lines : List String) : AskOutcome :=
  let st1 := { st with
    conversation_id_prev_queue := st.conversation_id_prev_queue ++ [conv]
    parent_id_prev_queue := st.parent_id_prev_queue ++ [par] }
  if status ≠ 200 then
    ⟨st1, [], some (.err ⟨"OpenAI", .num status, .str body⟩)⟩
  else
    let r := runStream (Chatbot.processLine decode prompt) lines conv par
    match r.error with
    | some f => ⟨st1, r.deltas, some f⟩
    | none =>
      let st2 :=
        { st1 with conversation_mapping := mapInsert st1.conversation_mapping r.conv r.par }
      let st3 := if r.par.isNull then st2 else { st2 with parent_id := r.par }
      let st4 := if r.conv.isNull then st3 else { st3 with conversation_id := r.conv }
      ⟨st4, r.deltas, none⟩

/-- The synchronous `Chatbot.ask`, fully consumed: resolution, then
send/stream/commit.  `decode` stands for `json.loads`, `remote` for the
data `__map_conversations` would fetch, `freshUuid` for `uuid.uuid4()`,
`status`/`body` for the HTTP response. -/
def Chatbot.ask (decode : String → Option JVal) (remote : List (JVal × JVal))
    (freshUuid : String) (status : Nat) (body : String) (st : BotState)
    (prompt : String) (conversation_id parent_id : Option String)
    (lines : List String) : AskOutcome :=
  match Chatbot.askResolve remote freshUuid st conversation_id parent_id with
  | .error (st1, f) => ⟨st1, [], some f⟩
  | .ok (st1, conv, par) => Chatbot.askSend decode status body prompt st1 conv par lines

/-- `Chatbot.rollback_conversation(num)`: `num` times, pop the
conversation queue into the current conversation id and the parent
queue into the current parent id; `list.pop()` on an empty queue raises
`IndexError` (Python `pop()` removes the last element). -/
def Chatbot.rollback_conversation : BotState → Nat → BotState × Option PyExc
  | st, 0 => (st, none)
  | st, Nat.succ n =>
    match st.conversation_id_prev_queue.getLast? with
    | none => (st, some .indexError)
    | some c =>
      let st1 : BotState := { st with
        conversation_id := c
        conversation_id_prev_queue := st.conversation_id_prev_queue.dropLast }
      match st1.parent_id_prev_queue.getLast? with
      | none => (st1, some .indexError)
      | some p =>
        let st2 : BotState := { st1 with
          parent_id := p
          parent_id_prev_queue := st1.parent_id_prev_queue.dropLast }
        Chatbot.rollback_conversation st2 n

/-- Outcome of decoding the middle JWT segment of a cached token
(`split(".")`, padding, `base64.b64decode`, `json.loads`): the decoded
payload, one of the two caught decode errors (`binascii.Error`,
`json.JSONDecodeError`), or some other uncaught exception (such as the
`IndexError` when the token has no dot). -/
inductive JwtDecodeOutcome where
  | ok (payload : JVal)
  | badToken
  | exc (e : PyExc)

/-- `Chatbot.__get_cached_access_token`, lines 184-219: look the email
(or `"default"`) up in the cache's `access_tokens` dict; a present
token has its JWT payload decoded (a caught decode failure raises
`Error(code=5)`), and a numeric `exp` claim strictly earlier than
`time.time()` raises `Error(code=4)`; otherwise the token is
returned. -/
def Chatbot.getCachedAccessToken (decodeJwtPayload : String → JwtDecodeOutcome)
    (cache : JVal) (email : Option String) (now : Int) : Except Failure JVal :=
  let emailKey := match email with
    | some e => if e = "" then "default" else e
    | none => "default"
  match pyDictGetD cache "access_tokens" (.obj []) with
  | .error e => .error (.exc e)
  | .ok tokens =>
    match pyDictGetD tokens emailKey .null with
    | .error e => .error (.exc e)
    | .ok accessToken =>
      match accessToken with
      | .null => .ok .null
      | .str tok =>
        match decodeJwtPayload tok with
        | .exc e => .error (.exc e)
        | .badToken =>
          .error (.err ⟨"__get_cached_access_token", .str "Invalid access token", .num 5⟩)
        | .ok payload =>
          match pyDictGet payload "exp" with
          | .error e => .error (.exc e)
          | .ok exp =>
            match exp with
            | .null => .ok (.str tok)
            | .num e =>
              if e < now then
                .error (.err ⟨"__get_cached_access_token",
                  .str "Access token expired", .num 4⟩)
              else .ok (.str tok)
            | .bool b =>
              if (if b then (1 : Int) else 0) < now then
                .error (.err ⟨"__get_cached_access_token",
                  .str "Access token expired", .num 4⟩)
              else .ok (.str tok)
            | _ => .error (.exc .typeError)
      | _ => .error (.exc .attributeError)

/-- The `Chatbot` state right after `__init__` with no
`conversation_id`/`parent_id` arguments. -/
def initialState : BotState :=
  { conversation_id := .null
    parent_id := .null
    conversation_mapping := []
    conversation_id_prev_queue := []
    parent_id_prev_queue := [] }

/-- The state a resolution outcome carries, raise or no raise. -/
def resolvedState : Except (BotState × Failure) (BotState × JVal × JVal) → BotState
  | .error (st, _) => st
  | .ok (st, _, _) => st

/-- C7: a stream line that reaches the JSON decode and fails it is
skipped silently: the loop on `line :: rest` equals the loop on `rest`,
so no delta is yielded for the line, nothing is raised for it, and the
deltas of the remaining stream are unaffected. -/
theorem c7_decode_failure_skipped (decode : String → Option JVal)
    (prompt line : String) (rest : List String) (conv par : JVal)
    (h1 : line ≠ "Internal Server Error") (h2 : line ≠ "")
    (h3 : stripDataTag line ≠ "[DONE]")
    (h4 : decode (fixEscapes (stripDataTag line)) = none) :
    runStream (Chatbot.processLine decode prompt) (line :: rest) conv par =
      runStream (Chatbot.processLine decode prompt) rest conv par := by
  have hstep : Chatbot.processLine decode prompt line = .skip := by
    unfold Chatbot.processLine
    rw [if_neg h1, if_neg h2, if_neg h3]
    simp only [h4]
  simp only [runStream, hstep]

/-- C7 witness: a truncated JSON fragment is skipped and the stream
continues to the completion sentinel. -/
theorem c7_witness :
    runStream (Chatbot.processLine (fun _ => none) "Hello")
        ["data: \x7bbad json", "data: [DONE]"] .null .null =
      runStream (Chatbot.processLine (fun _ => none) "Hello") ["data: [DONE]"] .null .null :=
  c7_decode_failure_skipped (fun _ => none) "Hello" "data: \x7bbad json" ["data: [DONE]"]
    .null .null (by decide) (by decide) (by decide) rfl

/-- A stream line whose payload passes `__check_fields` yet lacks the
`parts` list, and its decode table. -/
def c10Json : String := "\x7b\"message\": \x7b\"content\": \x7b\x7d\x7d\x7d"

/-- `json.loads` of `c10Json`. -/
def c10Payload : JVal := .obj [("message", .obj [("content", .obj [])])]

/-- `json.loads` on the lines of the C10 stream. -/
def c10Decode : String → Option JVal := fun s => if s = c10Json then some c10Payload else none

/-- C10: `__check_fields` is true exactly when the
`payload["message"]["content"]` lookup succeeds; it does not inspect
`parts`, and the payload `{"message": {"content": {}}}` passes the
check while the `parts[0]` extraction in `ask` then aborts the stream
with an uncaught `KeyError` — not a raise of the module's `Error`
taxonomy. -/
theorem c10_check_fields_shape :
    (∀ j : JVal, Chatbot.check_fields j = true ↔
      ∃ v, ((pySubscr j "message").bind fun m => pySubscr m "content") = Except.ok v) ∧
    (Chatbot.check_fields c10Payload = true ∧
     extractMessage c10Payload = .error .keyError ∧
     (runStream (Chatbot.processLine c10Decode "Hello") [c10Json] .null .null).error =
       some (.exc .keyError) ∧
     Failure.isErrorRaise (.exc .keyError) = false) := by
  constructor
  · intro j
    unfold Chatbot.check_fields
    cases hm : pySubscr j "message" with
    | error e => simp [Except.bind, hm]
    | ok m =>
      cases hc : pySubscr m "content" with
      | error e => simp [Except.bind, hm, hc]
      | ok v => simp [Except.bind, hm, hc]
  · exact ⟨rfl, rfl, rfl, rfl⟩

/-- A stream line whose payload fails `__check_fields` and whose
`detail` is a plain string other than the rate-limit message. -/
def c3Json : String := "\x7b\"detail\": \"boom\"\x7d"

/-- `json.loads` of `c3Json`. -/
def c3Payload : JVal := .obj [("detail", .str "boom")]

/-- `json.loads` on the lines of the C3 stream. -/
def c3Decode : String → Option JVal := fun s => if s = c3Json then some c3Payload else none

/-- C3 counterexample: on the missing-field payload
`{"detail": "boom"}` the synchronous `ask` does not raise one of the
three `Error` raises of the claim; `line.get("detail", {}).get("code")`
raises an uncaught `AttributeError` (a `str` has no `.get`), which is
not a raise of the module's `Error` class. -/
theorem c3_counterexample :
    (runStream (Chatbot.processLine c3Decode "Hello") [c3Json] .null .null).error =
      some (.exc .attributeError) ∧
    (runStream (Chatbot.processLine c3Decode "Hello") [c3Json] .null .null).deltas = [] ∧
    Failure.isErrorRaise (.exc .attributeError) = false :=
  ⟨rfl, rfl, rfl⟩

/-- The `detail` shapes on which the missing-field handler completes
with a raise of the `Error` class: `detail` absent, a dict, or exactly
the rate-limit string. -/
def detailShapeOk (fields : List (String × JVal)) : Bool :=
  match jlookup fields "detail" with
  | none => true
  | some (.str s) => s == "Too many requests in 1 hour. Try again later."
  | some (.obj _) => true
  | some _ => false

/-- C3 amended: for a dict payload failing `__check_fields` whose
`detail` is absent, a dict, or the exact rate-limit string, `ask`
raises exactly one of `Error(code=2)` (rate limit), `Error(code=3)`
(invalid api key) or `Error(code=1)` (field missing), per the claimed
conditions, and the raise aborts the stream with no further deltas;
payloads with any other `detail` shape instead crash with an uncaught
`AttributeError` (see the counterexample). -/
theorem c3_amended (fields : List (String × JVal))
    (hcf : Chatbot.check_fields (.obj fields) = false)
    (hshape : detailShapeOk fields = true) :
    (jlookup fields "detail" = some (.str "Too many requests in 1 hour. Try again later.") →
      Chatbot.handleFieldMissing (.obj fields) =
        .err ⟨"ask", .str "Too many requests in 1 hour. Try again later.", .num 2⟩) ∧
    (∀ dfs, jlookup fields "detail" = some (.obj dfs) →
      (JVal.beq ((jlookup dfs "code").getD .null) (.str "invalid_api_key") = true →
        Chatbot.handleFieldMissing (.obj fields) =
          .err ⟨"ask", (jlookup dfs "message").getD .null, .num 3⟩) ∧
      (JVal.beq ((jlookup dfs "code").getD .null) (.str "invalid_api_key") = false →
        Chatbot.handleFieldMissing (.obj fields) =
          .err ⟨"ask", .str "Field missing", .num 1⟩)) ∧
    (jlookup fields "detail" = none →
      Chatbot.handleFieldMissing (.obj fields) = .err ⟨"ask", .str "Field missing", .num 1⟩) ∧
    Failure.isErrorRaise (Chatbot.handleFieldMissing (.obj fields)) = true ∧
    (∀ (decode : String → Option JVal) (prompt line : String) (rest : List String)
        (conv par : JVal),
      Chatbot.processLine decode prompt line = .fail (Chatbot.handleFieldMissing (.obj fields)) →
      runStream (Chatbot.processLine decode prompt) (line :: rest) conv par =
        ⟨[], conv, par, some (Chatbot.handleFieldMissing (.obj fields))⟩) := by
  have habort : ∀ (decode : String → Option JVal) (prompt line : String)
      (rest : List String) (conv par : JVal),
      Chatbot.processLine decode prompt line = .fail (Chatbot.handleFieldMissing (.obj fields)) →
      runStream (Chatbot.processLine decode prompt) (line :: rest) conv par =
        ⟨[], conv, par, some (Chatbot.handleFieldMissing (.obj fields))⟩ := by
    intro decode prompt line rest conv par hline
    simp only [runStream, hline]
  refine ⟨?_, ?_, ?_, ?_, habort⟩
  · intro hd
    simp only [Chatbot.handleFieldMissing, pyDictGet, pyDictGetD, hd, Option.getD_some]
    rfl
  · intro dfs hd
    constructor
    · intro hcode
      simp only [Chatbot.handleFieldMissing, pyDictGet, pyDictGetD, hd, Option.getD_some, hcode]
      rfl
    · intro hcode
      simp only [Chatbot.handleFieldMissing, pyDictGet, pyDictGetD, hd, Option.getD_some, hcode]
      rfl
  · intro hd
    simp only [Chatbot.handleFieldMissing, pyDictGet, pyDictGetD, hd, Option.getD_none]
    rfl
  · unfold detailShapeOk at hshape
    cases hd : jlookup fields "detail" with
    | none =>
      simp only [Chatbot.handleFieldMissing, pyDictGet, pyDictGetD, hd, Option.getD_none]
      rfl
    | some d =>
      cases d with
      | str s =>
        simp only [hd] at hshape
        have hs : s = "Too many requests in 1 hour. Try again later." := by
          simpa using hshape
        subst hs
        simp only [Chatbot.handleFieldMissing, pyDictGet, pyDictGetD, hd, Option.getD_some]
        rfl
      | obj dfs =>
        simp only [Chatbot.handleFieldMissing, pyDictGet, pyDictGetD, hd, Option.getD_some]
        cases hcode : JVal.beq ((jlookup dfs "code").getD .null) (.str "invalid_api_key") <;> rfl
      | null => simp [hd] at hshape
      | bool b => simp [hd] at hshape
      | num n => simp [hd] at hshape
      | arr l => simp [hd] at hshape

/-- C3 amended witness: the payload
`{"detail": {"code": "invalid_api_key", "message": "bad key"}}` fails
the shape check and raises `Error(code=3)` carrying the detail
message. -/
theorem c3_amended_witness :
    Chatbot.handleFieldMissing
        (.obj [("detail",
          .obj [("code", .str "invalid_api_key"), ("message", .str "bad key")])]) =
      .err ⟨"ask", .str "bad key", .num 3⟩ :=
  ((c3_amended
      [("detail", .obj [("code", .str "invalid_api_key"), ("message", .str "bad key")])]
      rfl rfl).2.1
    [("code", .str "invalid_api_key"), ("message", .str "bad key")] rfl).1 rfl

/-- C6: the argument-resolution phase of `ask`: (1) a `parent_id`
without a `conversation_id` raises `Error("User", ..., -1)` and leaves
the state untouched; (2) an explicit `conversation_id` differing from
the tracker's current one resets the tracker's `parent_id` to `None`
before resolving, whatever resolution then does; (3) with no effective
conversation or parent id, the freshly generated UUID becomes the
resolved `parent_id`. -/
theorem c6_argument_resolution :
    (∀ (remote : List (JVal × JVal)) (freshUuid : String) (st : BotState) (p : String),
      Chatbot.askResolve remote freshUuid st none (some p) =
        .error (st, .err ⟨"User",
          .str "conversation_id must be set once parent_id is set", .num (-1)⟩)) ∧
    (∀ (remote : List (JVal × JVal)) (freshUuid : String) (st : BotState) (c : String)
        (pid : Option String),
      JVal.beq (.str c) st.conversation_id = false →
      (resolvedState (Chatbot.askResolve remote freshUuid st (some c) pid)).parent_id =
        .null) ∧
    (∀ (remote : List (JVal × JVal)) (freshUuid : String) (st : BotState),
      st.conversation_id = .null → st.parent_id = .null →
      Chatbot.askResolve remote freshUuid st none none = .ok (st, .null, .str freshUuid)) := by
  refine ⟨fun remote freshUuid st p => rfl, ?_, ?_⟩
  · intro remote freshUuid st c pid hbeq
    unfold Chatbot.askResolve
    simp only [Option.isSome_some, Option.isNone_some, Bool.and_false, Bool.false_eq_true,
      if_false, hbeq]
    repeat' split
    all_goals rfl
  · intro remote freshUuid st h1 h2
    unfold Chatbot.askResolve
    simp only [h1, h2]
    rfl

/-- C8: for a cached token whose decoded JWT payload is a dict: an
`exp` claim strictly earlier than the current time raises
`Error("Access token expired", code=4)` and the token is never
returned; a payload with no `exp` claim, or one not earlier than the
current time, returns the token. -/
theorem c8_token_expiry (decodeJwtPayload : String → JwtDecodeOutcome)
    (em tok : String) (pfs : List (String × JVal)) (e now : Int)
    (hem : em ≠ "")
    (hdec : decodeJwtPayload tok = .ok (.obj pfs)) :
    (jlookup pfs "exp" = some (.num e) → e < now →
      Chatbot.getCachedAccessToken decodeJwtPayload
          (.obj [("access_tokens", .obj [(em, .str tok)])]) (some em) now =
        .error (.err ⟨"__get_cached_access_token", .str "Access token expired", .num 4⟩)) ∧
    (jlookup pfs "exp" = none →
      Chatbot.getCachedAccessToken decodeJwtPayload
          (.obj [("access_tokens", .obj [(em, .str tok)])]) (some em) now =
        .ok (.str tok)) ∧
    (jlookup pfs "exp" = some (.num e) → now ≤ e →
      Chatbot.getCachedAccessToken decodeJwtPayload
          (.obj [("access_tokens", .obj [(em, .str tok)])]) (some em) now =
        .ok (.str tok)) := by
  have hkey : Chatbot.getCachedAccessToken decodeJwtPayload
      (.obj [("access_tokens", .obj [(em, .str tok)])]) (some em) now =
      (match jlookup pfs "exp" with
       | some v =>
         match v with
         | .null => .ok (.str tok)
         | .num x =>
           if x < now then
             .error (.err ⟨"__get_cached_access_token", .str "Access token expired", .num 4⟩)
           else .ok (.str tok)
         | .bool b =>
           if (if b then (1 : Int) else 0) < now then
             .error (.err ⟨"__get_cached_access_token", .str "Access token expired", .num 4⟩)
           else .ok (.str tok)
         | _ => .error (.exc .typeError)
       | none => .ok (.str tok)) := by
    unfold Chatbot.getCachedAccessToken
    simp only [if_neg hem, pyDictGetD, jlookup, eq_self_iff_true, if_true, Option.getD_some]
    simp only [hdec, pyDictGet]
    cases hexp : jlookup pfs "exp" with
    | none => simp only [hexp, Option.getD_none]
    | some v => simp only [hexp, Option.getD_some]
  refine ⟨?_, ?_, ?_⟩
  · intro hexp hlt
    rw [hkey, hexp]
    simp only [if_pos hlt]
  · intro hexp
    rw [hkey, hexp]
  · intro hexp hge
    rw [hkey, hexp]
    simp only [if_neg (not_lt.mpr hge)]

/-- C8 witness: with the payload `{"exp": 100}`, the lookup at time 200
raises the expiry error, applied at a concrete decode function, email
and token. -/
theorem c8_witness :
    Chatbot.getCachedAccessToken (fun _ => .ok (.obj [("exp", .num 100)]))
        (.obj [("access_tokens", .obj [("alice", .str "tok")])]) (some "alice") 200 =
      .error (.err ⟨"__get_cached_access_token", .str "Access token expired", .num 4⟩) :=
  (c8_token_expiry (fun _ => .ok (.obj [("exp", .num 100)])) "alice" "tok"
    [("exp", .num 100)] 100 200 (by decide) rfl).1 rfl (by decide)

/-- Assigning under the key `None` makes that key found. -/
theorem mapLookup_insert_null (m : List (JVal × JVal)) (v : JVal) :
    mapLookup (mapInsert m .null v) .null = some v := by
  induction m with
  | nil => rfl
  | cons kv rest ih =>
    obtain ⟨k, w⟩ := kv
    by_cases hk : JVal.beq k .null = true
    · simp only [mapInsert, if_pos hk, mapLookup]
    · simp only [mapInsert, if_neg hk, mapLookup]
      exact ih

/-- C9: a brand-new conversation (no conversation id supplied or
current, fresh parent UUID generated) whose stream yields nothing
commits `conversation_mapping[None] = freshUuid`: the key `None` is
inserted and found in the mapping, the tracker's parent id becomes the
fresh UUID and its conversation id stays `None` — the mapping is not a
UUID-to-UUID map. -/
theorem c9_null_key_commit (decode : String → Option JVal) (remote : List (JVal × JVal))
    (freshUuid body prompt : String) (st : BotState) (lines : List String)
    (hconv : st.conversation_id = .null) (hpar : st.parent_id = .null)
    (hstream : runStream (Chatbot.processLine decode prompt) lines .null (.str freshUuid) =
      ⟨[], .null, .str freshUuid, none⟩) :
    (Chatbot.ask decode remote freshUuid 200 body st prompt none none
        lines).state.conversation_mapping =
      mapInsert st.conversation_mapping .null (.str freshUuid) ∧
    mapLookup (Chatbot.ask decode remote freshUuid 200 body st prompt none none
        lines).state.conversation_mapping .null = some (.str freshUuid) ∧
    (Chatbot.ask decode remote freshUuid 200 body st prompt none none
        lines).state.parent_id = .str freshUuid ∧
    (Chatbot.ask decode remote freshUuid 200 body st prompt none none
        lines).state.conversation_id = .null ∧
    (Chatbot.ask decode remote freshUuid 200 body st prompt none none
        lines).deltas = [] ∧
    (Chatbot.ask decode remote freshUuid 200 body st prompt none none
        lines).error = none := by
  have hask : Chatbot.ask decode remote freshUuid 200 body st prompt none none lines =
      ⟨{ conversation_id := st.conversation_id
         parent_id := .str freshUuid
         conversation_mapping := mapInsert st.conversation_mapping .null (.str freshUuid)
         conversation_id_prev_queue := st.conversation_id_prev_queue ++ [.null]
         parent_id_prev_queue := st.parent_id_prev_queue ++ [.str freshUuid] }, [], none⟩ := by
    have e1 : Chatbot.askResolve remote freshUuid st none none =
        .ok (st, .null, .str freshUuid) := by
      unfold Chatbot.askResolve
      simp only [hconv, hpar]
      rfl
    unfold Chatbot.ask
    rw [e1]
    show Chatbot.askSend decode 200 body prompt st .null (.str freshUuid) lines = _
    unfold Chatbot.askSend
    simp only [hstream]
    rfl
  rw [hask, hconv]
  exact ⟨rfl, mapLookup_insert_null st.conversation_mapping (.str freshUuid), rfl, rfl,
    rfl, rfl⟩

/-- C9 witness: the fresh-conversation commit at the initial state with
the one-line `[DONE]` stream. -/
theorem c9_witness :
    mapLookup (Chatbot.ask (fun _ => none) [] "u-fresh" 200 "" initialState "Hi" none none
      ["data: [DONE]"]).state.conversation_mapping .null = some (.str "u-fresh") :=
  (c9_null_key_commit (fun _ => none) [] "u-fresh" "" "Hi" initialState ["data: [DONE]"]
    rfl rfl rfl).2.1

/-- Argument resolution never touches the two history queues. -/
theorem askResolve_queues (remote : List (JVal × JVal)) (freshUuid : String) (st : BotState)
    (cid pid : Option String) :
    (resolvedState (Chatbot.askResolve remote freshUuid st cid
        pid)).conversation_id_prev_queue = st.conversation_id_prev_queue ∧
    (resolvedState (Chatbot.askResolve remote freshUuid st cid
        pid)).parent_id_prev_queue = st.parent_id_prev_queue := by
  unfold Chatbot.askResolve
  dsimp only []
  repeat' split
  all_goals exact ⟨rfl, rfl⟩

/-- The send/stream/commit phase appends exactly one entry to each
history queue, whatever the response status and stream do. -/
theorem askSend_queues (decode : String → Option JVal) (status : Nat) (body prompt : String)
    (st : BotState) (conv par : JVal) (lines : List String) :
    (Chatbot.askSend decode status body prompt st conv par
        lines).state.conversation_id_prev_queue =
      st.conversation_id_prev_queue ++ [conv] ∧
    (Chatbot.askSend decode status body prompt st conv par
        lines).state.parent_id_prev_queue = st.parent_id_prev_queue ++ [par] := by
  unfold Chatbot.askSend
  dsimp only []
  repeat' split
  all_goals exact ⟨rfl, rfl⟩

/-- C2 counterexample: an `ask` call that fails argument validation
(`parent_id` without `conversation_id`) raises before the history push,
so it appends nothing: both stacks still have length `0`, not `1`. -/
theorem c2_counterexample :
    (Chatbot.ask (fun _ => none) [] "u" 200 "" initialState "Hello" none (some "p")
        []).state.conversation_id_prev_queue.length = 0 ∧
    (Chatbot.ask (fun _ => none) [] "u" 200 "" initialState "Hello" none (some "p")
        []).state.parent_id_prev_queue.length = 0 ∧
    (Chatbot.ask (fun _ => none) [] "u" 200 "" initialState "Hello" none (some "p")
        []).error.isSome = true ∧
    (0 : Nat) ≠ 1 :=
  ⟨rfl, rfl, rfl, by decide⟩

/-- C2 amended: the two history stacks keep equal length across every
consumed `ask` call; a call whose argument resolution succeeds appends
exactly one entry — the resolved conversation/parent pair — to each
stack, whatever the response status and the stream then do (the push
at lines 332-335 precedes the send); a call that raises during argument
validation or conversation-mapping resolution appends nothing and
surfaces that raise. -/
theorem c2_amended (decode : String → Option JVal) (remote : List (JVal × JVal))
    (freshUuid : String) (status : Nat) (body : String) (st : BotState) (prompt : String)
    (conversation_id parent_id : Option String) (lines : List String)
    (hlen : st.conversation_id_prev_queue.length = st.parent_id_prev_queue.length) :
    (Chatbot.ask decode remote freshUuid status body st prompt conversation_id parent_id
        lines).state.conversation_id_prev_queue.length =
      (Chatbot.ask decode remote freshUuid status body st prompt conversation_id parent_id
        lines).state.parent_id_prev_queue.length ∧
    (∀ (st1 : BotState) (conv par : JVal),
      Chatbot.askResolve remote freshUuid st conversation_id parent_id =
        .ok (st1, conv, par) →
      (Chatbot.ask decode remote freshUuid status body st prompt conversation_id parent_id
          lines).state.conversation_id_prev_queue =
        st.conversation_id_prev_queue ++ [conv] ∧
      (Chatbot.ask decode remote freshUuid status body st prompt conversation_id parent_id
          lines).state.parent_id_prev_queue = st.parent_id_prev_queue ++ [par]) ∧
    (∀ (st1 : BotState) (f : Failure),
      Chatbot.askResolve remote freshUuid st conversation_id parent_id =
        .error (st1, f) →
      (Chatbot.ask decode remote freshUuid status body st prompt conversation_id parent_id
          lines).state.conversation_id_prev_queue = st.conversation_id_prev_queue ∧
      (Chatbot.ask decode remote freshUuid status body st prompt conversation_id parent_id
          lines).state.parent_id_prev_queue = st.parent_id_prev_queue ∧
      (Chatbot.ask decode remote freshUuid status body st prompt conversation_id parent_id
          lines).error = some f) := by
  refine ⟨?_, ?_, ?_⟩
  · have hq := askResolve_queues remote freshUuid st conversation_id parent_id
    unfold Chatbot.ask
    cases hres : Chatbot.askResolve remote freshUuid st conversation_id parent_id with
    | error p =>
      obtain ⟨st1, f⟩ := p
      rw [hres] at hq
      simp only [resolvedState] at hq
      show st1.conversation_id_prev_queue.length = st1.parent_id_prev_queue.length
      rw [hq.1, hq.2]
      exact hlen
    | ok p =>
      obtain ⟨st1, conv, par⟩ := p
      rw [hres] at hq
      simp only [resolvedState] at hq
      have hsend := askSend_queues decode status body prompt st1 conv par lines
      dsimp only
      rw [hsend.1, hsend.2, hq.1, hq.2]
      simp [hlen]
  · intro st1 conv par hres
    have hq := askResolve_queues remote freshUuid st conversation_id parent_id
    rw [hres] at hq
    simp only [resolvedState] at hq
    have hsend := askSend_queues decode status body prompt st1 conv par lines
    unfold Chatbot.ask
    rw [hres]
    dsimp only
    rw [hsend.1, hsend.2, hq.1, hq.2]
    exact ⟨rfl, rfl⟩
  · intro st1 f hres
    have hq := askResolve_queues remote freshUuid st conversation_id parent_id
    rw [hres] at hq
    simp only [resolvedState] at hq
    unfold Chatbot.ask
    rw [hres]
    exact ⟨hq.1, hq.2, rfl⟩

/-- C2 amended witness: on the initial state a resolving call pushes
exactly the resolved pair — `None` and the fresh UUID — onto the two
stacks. -/
theorem c2_amended_witness :
    (Chatbot.ask (fun _ => none) [] "u" 200 "" initialState "Hello" none none
        ["data: [DONE]"]).state.conversation_id_prev_queue =
      initialState.conversation_id_prev_queue ++ [.null] ∧
    (Chatbot.ask (fun _ => none) [] "u" 200 "" initialState "Hello" none none
        ["data: [DONE]"]).state.parent_id_prev_queue =
      initialState.parent_id_prev_queue ++ [.str "u"] :=
  (c2_amended (fun _ => none) [] "u" 200 "" initialState "Hello" none none
    ["data: [DONE]"] rfl).2.1 initialState .null (.str "u") rfl

/-- The last element of a just-pushed stack. -/
theorem listGetDConcat {α : Type} (q : List α) (c d : α) :
    (q ++ [c]).getD q.length d = c := by
  induction q with
  | nil => rfl
  | cons x xs ih => simpa [List.getD_cons_succ] using ih

/-- Truncating a just-pushed stack removes exactly the push. -/
theorem listTakeConcat {α : Type} (q : List α) (c : α) : (q ++ [c]).take q.length = q := by
  induction q with
  | nil => rfl
  | cons x xs ih => simp [List.take_succ_cons, ih]

/-- First `ask` of the C4 run: explicit pair `("c1", "p1")`, stream
ends at the sentinel with no deltas. -/
def c4State1 : BotState :=
  (Chatbot.ask (fun _ => none) [] "u1" 200 "" initialState "q1" (some "c1") (some "p1")
    ["data: [DONE]"]).state

/-- Second `ask` of the C4 run: explicit pair `("c2", "p2")`. -/
def c4State2 : BotState :=
  (Chatbot.ask (fun _ => none) [] "u2" 200 "" c4State1 "q2" (some "c2") (some "p2")
    ["data: [DONE]"]).state

/-- C4 counterexample: before the second call the current ids are
`("c1", "p1")`, but `rollback(1)` after it restores `("c2", "p2")` —
the pair pushed by the rolled-back call, not the ids that were current
before it. -/
theorem c4_counterexample :
    c4State1.conversation_id = .str "c1" ∧
    c4State1.parent_id = .str "p1" ∧
    (Chatbot.rollback_conversation c4State2 1).2 = none ∧
    (Chatbot.rollback_conversation c4State2 1).1.conversation_id = .str "c2" ∧
    (Chatbot.rollback_conversation c4State2 1).1.parent_id = .str "p2" ∧
    ("c2" : String) ≠ "c1" ∧ ("p2" : String) ≠ "p1" :=
  ⟨rfl, rfl, rfl, rfl, rfl, by decide, by decide⟩

/-- C4 amended: with equal-length history stacks, `rollback(k)` for
`0 < k ≤ history length` pops `k` entries off both stacks and makes
current the pair pushed by the `k`-th most recent `ask` (the ids
attached to that call's request); `rollback(k)` with `k` exceeding the
available history raises `IndexError` rather than silently no-opping. -/
theorem c4_amended (k : Nat) (st : BotState)
    (hlen : st.conversation_id_prev_queue.length = st.parent_id_prev_queue.length) :
    (0 < k → k ≤ st.conversation_id_prev_queue.length →
      (Chatbot.rollback_conversation st k).2 = none ∧
      (Chatbot.rollback_conversation st k).1.conversation_id =
        st.conversation_id_prev_queue.getD
          (st.conversation_id_prev_queue.length - k) .null ∧
      (Chatbot.rollback_conversation st k).1.parent_id =
        st.parent_id_prev_queue.getD (st.parent_id_prev_queue.length - k) .null ∧
      (Chatbot.rollback_conversation st k).1.conversation_mapping =
        st.conversation_mapping ∧
      (Chatbot.rollback_conversation st k).1.conversation_id_prev_queue =
        st.conversation_id_prev_queue.take
          (st.conversation_id_prev_queue.length - k) ∧
      (Chatbot.rollback_conversation st k).1.parent_id_prev_queue =
        st.parent_id_prev_queue.take (st.parent_id_prev_queue.length - k)) ∧
    (st.conversation_id_prev_queue.length < k →
      (Chatbot.rollback_conversation st k).2 = some .indexError) := by
  induction k generalizing st with
  | zero =>
    exact ⟨fun h => absurd h (lt_irrefl 0), fun h => absurd h (Nat.not_lt_zero _)⟩
  | succ k ih =>
    rcases List.eq_nil_or_concat st.conversation_id_prev_queue with hnil | ⟨q, c, hq⟩
    · constructor
      · intro _ hle
        rw [hnil] at hle
        exact absurd hle (by simp)
      · intro _
        unfold Chatbot.rollback_conversation
        rw [hnil]
        rfl
    · rw [List.concat_eq_append] at hq
      rcases List.eq_nil_or_concat st.parent_id_prev_queue with hnil2 | ⟨q2, p, hp⟩
      · rw [hq, hnil2] at hlen
        simp at hlen
      · rw [List.concat_eq_append] at hp
        have hstep : Chatbot.rollback_conversation st (k + 1) =
            Chatbot.rollback_conversation
              ⟨c, p, st.conversation_mapping, q, q2⟩ k := by
          conv_lhs => rw [show k + 1 = Nat.succ k from rfl]
          simp only [Chatbot.rollback_conversation, hq, hp, List.getLast?_concat,
            List.dropLast_concat]
        have hlen2 : q.length = q2.length := by
          rw [hq, hp] at hlen
          simpa using hlen
        constructor
        · intro _ hle
          rw [hq] at hle
          simp only [List.length_append, List.length_cons, List.length_nil] at hle
          by_cases hk : k = 0
          · subst hk
            rw [hstep]
            unfold Chatbot.rollback_conversation
            refine ⟨rfl, ?_, ?_, rfl, ?_, ?_⟩
            · rw [hq]
              simpa using (listGetDConcat q c .null).symm
            · rw [hp]
              simpa using (listGetDConcat q2 p .null).symm
            · rw [hq]
              simpa using (listTakeConcat q c).symm
            · rw [hp]
              simpa using (listTakeConcat q2 p).symm
          · have hk1 : 0 < k := Nat.pos_of_ne_zero hk
            have hk2 : k ≤ q.length := by omega
            obtain ⟨e1, e2, e3, e4, e5, e6⟩ :=
              (ih ⟨c, p, st.conversation_mapping, q, q2⟩ hlen2).1 hk1 hk2
            dsimp only at e2 e3 e4 e5 e6
            rw [hstep]
            refine ⟨e1, ?_, ?_, e4, ?_, ?_⟩
            · rw [e2, hq]
              simp only [List.length_append, List.length_cons, List.length_nil]
              have hidx : q.length + (0 + 1) - (k + 1) = q.length - k := by omega
              rw [hidx, List.getD_append q [c] .null (q.length - k) (by omega)]
            · rw [e3, hp]
              simp only [List.length_append, List.length_cons, List.length_nil]
              have hidx : q2.length + (0 + 1) - (k + 1) = q2.length - k := by omega
              rw [hidx, List.getD_append q2 [p] .null (q2.length - k) (by omega)]
            · rw [e5, hq]
              simp only [List.length_append, List.length_cons, List.length_nil]
              have hidx : q.length + (0 + 1) - (k + 1) = q.length - k := by omega
              rw [hidx, List.take_append_of_le_length (by omega)]
            · rw [e6, hp]
              simp only [List.length_append, List.length_cons, List.length_nil]
              have hidx : q2.length + (0 + 1) - (k + 1) = q2.length - k := by omega
              rw [hidx, List.take_append_of_le_length (by omega)]
        · intro hlt
          rw [hq] at hlt
          simp only [List.length_append, List.length_cons, List.length_nil] at hlt
          have hk2 : q.length < k := by omega
          rw [hstep]
          exact (ih ⟨c, p, st.conversation_mapping, q, q2⟩ hlen2).2 hk2

/-- C4 amended witness: rolling one call back on a two-entry history
restores the most recently pushed pair, and rolling back three raises. -/
theorem c4_amended_witness :
    (Chatbot.rollback_conversation
        ⟨.null, .null, [], [.str "a1", .str "a2"], [.str "b1", .str "b2"]⟩ 1).1.conversation_id =
      .str "a2" ∧
    (Chatbot.rollback_conversation
        ⟨.null, .null, [], [.str "a1", .str "a2"], [.str "b1", .str "b2"]⟩ 3).2 =
      some .indexError :=
  ⟨((c4_amended 1 ⟨.null, .null, [], [.str "a1", .str "a2"], [.str "b1", .str "b2"]⟩
      rfl).1 (by decide) (by decide)).2.1,
   (c4_amended 3 ⟨.null, .null, [], [.str "a1", .str "a2"], [.str "b1", .str "b2"]⟩
      rfl).2 (by decide)⟩

/-- The spec's C5 example echo frame (JSON part). -/
def c5Json1 : String :=
  "\x7b\"message\": \x7b\"content\": \x7b\"parts\": [\"Hello\"]\x7d, \"id\": \"m1\"\x7d, \"conversation_id\": \"c1\"\x7d"

/-- The spec's C5 example answer frame (JSON part). -/
def c5Json2 : String :=
  "\x7b\"message\": \x7b\"content\": \x7b\"parts\": [\"Hi there\"]\x7d, \"id\": \"m2\"\x7d, \"conversation_id\": \"c1\"\x7d"

/-- `json.loads` of `c5Json1`. -/
def c5Payload1 : JVal :=
  .obj [("message", .obj [("content", .obj [("parts", .arr [.str "Hello"])]),
    ("id", .str "m1")]), ("conversation_id", .str "c1")]

/-- `json.loads` of `c5Json2`. -/
def c5Payload2 : JVal :=
  .obj [("message", .obj [("content", .obj [("parts", .arr [.str "Hi there"])]),
    ("id", .str "m2")]), ("conversation_id", .str "c1")]

/-- `json.loads` on the lines of the C5 stream. -/
def c5Decode : String → Option JVal := fun s =>
  if s = c5Json1 then some c5Payload1
  else if s = c5Json2 then some c5Payload2
  else none

/-- C5: on the spec's example stream — an echo of the prompt "Hello",
then the "Hi there" frame, then the completion sentinel — a consumed
`ask` yields exactly one delta, `{text: "Hi there",
conversation_id: "c1", parent_id: "m2"}`, and raises nothing; and in
general any frame whose extracted message compares equal to the prompt
is skipped without yielding, leaving the rest of the stream
unaffected. -/
theorem c5_stream_example :
    ((Chatbot.ask c5Decode [] "u-new" 200 "" initialState "Hello" none none
        ["data: " ++ c5Json1, "data: " ++ c5Json2, "data: [DONE]"]).deltas =
      [⟨.str "Hi there", .str "c1", .str "m2", .null⟩] ∧
     (Chatbot.ask c5Decode [] "u-new" 200 "" initialState "Hello" none none
        ["data: " ++ c5Json1, "data: " ++ c5Json2, "data: [DONE]"]).error = none) ∧
    (∀ (decode : String → Option JVal) (prompt line : String) (rest : List String)
        (conv par : JVal) (j m : JVal),
      line ≠ "Internal Server Error" → line ≠ "" → stripDataTag line ≠ "[DONE]" →
      decode (fixEscapes (stripDataTag line)) = some j →
      Chatbot.check_fields j = true →
      extractMessage j = .ok m → JVal.beq m (.str prompt) = true →
      runStream (Chatbot.processLine decode prompt) (line :: rest) conv par =
        runStream (Chatbot.processLine decode prompt) rest conv par) := by
  constructor
  · exact ⟨rfl, rfl⟩
  · intro decode prompt line rest conv par j m h1 h2 h3 h4 h5 h6 h7
    have hstep : Chatbot.processLine decode prompt line = .skip := by
      unfold Chatbot.processLine
      rw [if_neg h1, if_neg h2, if_neg h3]
      simp only [h4, h5, Bool.not_true, Bool.false_eq_true, if_false, h6, h7, if_true]
    simp only [runStream, hstep]

/-- C5 witness for the general echo-skip part: the echo frame of the
example stream is skipped in front of the sentinel. -/
theorem c5_witness :
    runStream (Chatbot.processLine c5Decode "Hello")
        [("data: " ++ c5Json1), "data: [DONE]"] .null .null =
      runStream (Chatbot.processLine c5Decode "Hello") ["data: [DONE]"] .null .null :=
  (c5_stream_example).2 c5Decode "Hello" ("data: " ++ c5Json1) ["data: [DONE]"]
    .null .null c5Payload1 (.str "Hello") (by decide) (by decide) (by decide) rfl rfl rfl rfl

/-- The C1 frame: an echo of the prompt "Hello", with a metadata dict
so that both variants can extract a model (JSON part). -/
def c1Json : String :=
  "\x7b\"message\": \x7b\"content\": \x7b\"parts\": [\"Hello\"]\x7d, \"id\": \"m1\", \"metadata\": \x7b\x7d\x7d, \"conversation_id\": \"c1\"\x7d"

/-- `json.loads` of `c1Json`. -/
def c1Payload : JVal :=
  .obj [("message", .obj [("content", .obj [("parts", .arr [.str "Hello"])]),
    ("id", .str "m1"), ("metadata", .obj [])]), ("conversation_id", .str "c1")]

/-- `json.loads` on the lines of the C1 stream. -/
def c1Decode : String → Option JVal := fun s => if s = c1Json then some c1Payload else none

/-- C1 counterexample: on a stream holding one frame that echoes the
prompt, the synchronous loop skips it (echo check) and yields no delta,
while the asynchronous loop — which has no echo check — yields one: the
two modes do not produce the same `MessageDelta` sequence. -/
theorem c1_counterexample :
    (runStream (Chatbot.processLine c1Decode "Hello") [c1Json] .null .null).deltas.length =
      0 ∧
    (runStream (AsyncChatbot.processLine c1Decode) [c1Json] .null .null).deltas.length =
      1 ∧
    (0 : Nat) ≠ 1 :=
  ⟨rfl, rfl, by decide⟩

/-- When `line["message"]["metadata"]` is a dict, the synchronous
`try/except KeyError` model extraction and the asynchronous
`"model_slug" in metadata` conditional agree. -/
theorem extractModel_eq (j : JVal) (mfs : List (String × JVal))
    (h : messageMetadata j = .ok (.obj mfs)) :
    Chatbot.extractModel j = AsyncChatbot.extractModel j := by
  unfold Chatbot.extractModel AsyncChatbot.extractModel
  rw [h]
  simp only [pySubscr, pyContains]
  cases h3 : jlookup mfs "model_slug" <;> rfl

/-- A stream line on which the synchronous and asynchronous loops act
identically: not the fault literal, escape fixing is the identity on
the stripped line, `[DONE]` occurs only as the whole stripped line, and
any decoded payload passes the shape check, does not echo the prompt,
and carries a dict `metadata` under `message`. -/
def cleanLine (decode : String → Option JVal) (prompt : String) (line : String) : Bool :=
  (line != "Internal Server Error") &&
  (fixEscapes (stripDataTag line) == stripDataTag line) &&
  (!(strContains (stripDataTag line) "[DONE]") || (stripDataTag line == "[DONE]")) &&
  (match decode (stripDataTag line) with
   | none => true
   | some j =>
     Chatbot.check_fields j &&
     (match extractMessage j with
      | .error _ => true
      | .ok m =>
        (!(JVal.beq m (.str prompt))) &&
        (match messageMetadata j with
         | .ok (.obj _) => true
         | _ => false)))

/-- On a clean line the two per-line processors take the same step. -/
theorem processLine_eq_of_clean (decode : String → Option JVal) (prompt line : String)
    (h : cleanLine decode prompt line = true) :
    Chatbot.processLine decode prompt line = AsyncChatbot.processLine decode line := by
  unfold cleanLine at h
  simp only [Bool.and_eq_true, bne_iff_ne, ne_eq, beq_iff_eq, Bool.or_eq_true] at h
  obtain ⟨⟨⟨h1, h2⟩, h3⟩, h4⟩ := h
  unfold Chatbot.processLine AsyncChatbot.processLine
  rw [if_neg h1]
  by_cases he : line = ""
  · rw [if_pos he, if_pos he]
  · rw [if_neg he, if_neg he]
    dsimp only
    by_cases hdone : stripDataTag line = "[DONE]"
    · rw [if_pos hdone,
        if_pos (show strContains (stripDataTag line) "[DONE]" = true by rw [hdone]; decide)]
    · have hnsub : ¬ strContains (stripDataTag line) "[DONE]" = true := by
        rcases h3 with h3 | h3
        · simpa using h3
        · exact absurd h3 hdone
      rw [if_neg hdone, if_neg hnsub, h2]
      cases hdec : decode (stripDataTag line) with
      | none => simp only [hdec]
      | some j =>
        simp only [hdec] at h4 ⊢
        rw [Bool.and_eq_true] at h4
        obtain ⟨h5, h6⟩ := h4
        rw [show AsyncChatbot.check_fields j = Chatbot.check_fields j from rfl, h5]
        simp only [Bool.not_true, Bool.false_eq_true, if_false]
        cases hm : extractMessage j with
        | error e => simp only [hm]
        | ok m =>
          simp only [hm] at h6 ⊢
          rw [Bool.and_eq_true] at h6
          obtain ⟨h7, h8⟩ := h6
          have h7a : JVal.beq m (.str prompt) = false := by simpa using h7
          rw [h7a]
          simp only [Bool.false_eq_true, if_false]
          obtain ⟨mfs, hmd⟩ : ∃ mfs, messageMetadata j = .ok (.obj mfs) := by
            cases hmm : messageMetadata j with
            | error e => simp [hmm] at h8
            | ok md =>
              cases md with
              | obj mfs => exact ⟨mfs, rfl⟩
              | null => simp [hmm] at h8
              | bool b => simp [hmm] at h8
              | num n => simp [hmm] at h8
              | str s => simp [hmm] at h8
              | arr l => simp [hmm] at h8
          rw [extractModel_eq j mfs hmd]

/-- C1 amended: the synchronous and asynchronous `ask` loops yield
identical delta sequences, final loop ids and termination/error
outcomes on every stream whose lines are all clean in the sense of
`cleanLine`; the counterexample shows the restriction is necessary (the
asynchronous loop lacks the prompt-echo skip, among the other per-line
differences `cleanLine` excludes). -/
theorem c1_amended (decode : String → Option JVal) (prompt : String) (lines : List String)
    (conv par : JVal) (h : lines.all (cleanLine decode prompt) = true) :
    runStream (Chatbot.processLine decode prompt) lines conv par =
      runStream (AsyncChatbot.processLine decode) lines conv par := by
  induction lines generalizing conv par with
  | nil => rfl
  | cons l rest ih =>
    rw [List.all_cons, Bool.and_eq_true] at h
    have hl := processLine_eq_of_clean decode prompt l h.1
    simp only [runStream, hl]
    cases hstep : AsyncChatbot.processLine decode l with
    | skip => exact ih conv par h.2
    | done => rfl
    | fail f => rfl
    | yields d =>
      dsimp only
      rw [ih d.conversation_id d.parent_id h.2]

/-- C1 amended witness: a sentinel-only stream is clean and both loops
agree on it. -/
theorem c1_amended_witness :
    runStream (Chatbot.processLine (fun _ => none) "x") ["data: [DONE]"] .null .null =
      runStream (AsyncChatbot.processLine (fun _ => none)) ["data: [DONE]"] .null .null :=
  c1_amended (fun _ => none) "x" ["data: [DONE]"] .null .null (by decide)
